import Mathlib

/-!
Verification development for the Indian-Markets dashboard repository.

The file shallowly embeds the computational core of the repository:

* the trading-decision engine of
  premarket_technical_analysis_engine.py (generate_trading_decision),
* the indicator functions of the same module (calculate_rsi,
  calculate_adx, calculate_macd, calculate_bollinger_bands,
  calculate_support_resistance, calculate_kst,
  calculate_relative_strength),
* the TTL cache and the concurrent batch fetch of
  optimized_data_cache.py.

Modelling conventions, used throughout:

* Python floats are modelled by rationals; a float NaN value is
  modelled by Option.none wherever the code tests it with np.isnan or
  lets it flow into a comparison (a comparison with NaN is False in
  Python, which the pyGt and pyLt helpers reproduce).
* A missing dictionary key is modelled by Option.none on the field
  that represents it.  Where the code distinguishes a missing key from
  a present NaN value (the MACD block, which tests with "is not None"
  rather than with np.isnan), the field has type Option (Option Rat):
  the outer layer is key presence, the inner layer is NaN-ness.
* Python's round builtin is modelled by roundTo, which rounds half
  away from the floor; Python rounds half to even, the two agree on
  every value that is not an exact midpoint.
* Reason strings produced by the engine are modelled by the Reason
  inductive, which keeps the numeric payload but abstracts the string
  formatting; the joined rationale text is modelled by Rationale.
* datetime.now() is passed explicitly as an integer-valued instant.
-/

set_option autoImplicit false

namespace IndianMarkets

/-- Rounding of a rational to d decimal places, modelling Python's
round(x, d) (half-to-even midpoints excepted, see the header). -/
def roundTo (d : ℕ) (x : ℚ) : ℚ := (round (x * 10 ^ d) : ℤ) / 10 ^ d

/-- Rounding to one decimal place, round(x, 1) in the source. -/
def round1 (x : ℚ) : ℚ := roundTo 1 x

/-- Rounding to two decimal places, round(x, 2) in the source. -/
def round2 (x : ℚ) : ℚ := roundTo 2 x

/-- Rounding to four decimal places, round(x, 4) in the source. -/
def round4 (x : ℚ) : ℚ := roundTo 4 x

section Dict

variable {κ α : Type} [DecidableEq κ]

/-- Lookup in an insertion-ordered association list, modelling
Python's dict.get(key) and the pandas .loc label lookup. -/
def dictGet : List (κ × α) → κ → Option α
  | [], _ => none
  | (k', v) :: rest, k => if k' = k then some v else dictGet rest k

/-- Insertion into an insertion-ordered association list, modelling
Python's dict assignment d[key] = v: an existing binding is replaced
in place, a new key is appended at the end. -/
def dictInsert : List (κ × α) → κ → α → List (κ × α)
  | [], k, v => [(k, v)]
  | (k', v') :: rest, k, v =>
      if k' = k then (k, v) :: rest else (k', v') :: dictInsert rest k v

end Dict

/-! ## Decision engine data model

The input of generate_trading_decision is the analysis dictionary
built by get_comprehensive_analysis: a record of per-timeframe
entries, each carrying an indicator dictionary and an OHLCV summary.
Only the fields the decision engine reads are modelled. -/

/-- Fields of the indicators['macd'] sub-dictionary read by the
decision engine.  The engine tests these with "is not None", so key
presence (outer Option) and NaN-ness (inner Option) are distinct. -/
structure MacdSnapshot where
  macd : Option (Option ℚ)
  signal : Option (Option ℚ)
  histogram : Option (Option ℚ)
  deriving DecidableEq, Repr

/-- The per-timeframe indicator dictionary as read by the decision
engine.  For rsi, adx, the Bollinger position, support and
resistance the engine guards every use with np.isnan after a .get
with a NaN default, so a missing key and a present NaN value behave
identically and both are modelled by none. -/
structure Indicators where
  rsi : Option ℚ
  adx : Option ℚ
  macd : MacdSnapshot
  bb_position : Option ℚ
  support : Option ℚ
  resistance : Option ℚ
  deriving DecidableEq, Repr

/-- The indicator dictionary with no available indicator, {} in the
source. -/
def emptyIndicators : Indicators :=
  { rsi := none, adx := none, macd := ⟨none, none, none⟩,
    bb_position := none, support := none, resistance := none }

/-- One timeframe entry of the analysis dictionary.  hasError models
the presence of an 'error' key; indicators is none when the
'indicators' key is absent; close is the ohlcv close, none when the
'ohlcv' record is absent (reading it then raises a KeyError that the
blanket handler of the engine turns into an analysis-error record). -/
structure TimeframeData where
  hasError : Bool
  indicators : Option Indicators
  close : Option ℚ
  deriving DecidableEq, Repr

/-- The empty timeframe record {}, the default of
analysis['timeframes'].get(...). -/
def emptyTimeframe : TimeframeData :=
  { hasError := false, indicators := none, close := none }

/-- The analysis dictionary as read by generate_trading_decision:
the daily entry, the entry under key '30m' (the key that
get_comprehensive_analysis writes) and the entry under key '30min'
(the key the membership guard of the engine tests). -/
structure Analysis where
  daily : Option TimeframeData
  m30 : Option TimeframeData
  m30min : Option TimeframeData
  deriving DecidableEq, Repr

/-- Textual reasons appended by the scoring rules, with their numeric
payloads; the string formatting of the source is abstracted. -/
inductive Reason where
  | rsiOversold (v : ℚ)
  | rsiOverbought (v : ℚ)
  | rsiNeutralBullish (v : ℚ)
  | strongTrend (v : ℚ)
  | weakTrend (v : ℚ)
  | macdBullishCrossover
  | macdBearishCrossover
  | nearLowerBand (v : ℚ)
  | nearUpperBand (v : ℚ)
  | nearSupport (v : ℚ)
  | nearResistance (v : ℚ)
  | multiTimeframeOversold
  | multiTimeframeOverbought
  deriving DecidableEq, Repr

/-- Value of the 'reason' field of the returned record:
insufficientData renders as 'Insufficient data for analysis',
neutral as 'Neutral technical indicators', joined rs as the
'; '-join of the fired reasons, and analysisError as
'Analysis error: ...'. -/
inductive Rationale where
  | insufficientData
  | neutral
  | joined (rs : List Reason)
  | analysisError
  deriving DecidableEq, Repr

/-- The dictionary returned by generate_trading_decision.  The
bullish_signals and bearish_signals keys are present only on the
normal path, hence the Option. -/
structure DecisionRecord where
  decision : String
  confidence : String
  reason : Rationale
  score : ℤ
  bullish_signals : Option ℕ
  bearish_signals : Option ℕ
  deriving DecidableEq, Repr

/-- The early-return record of lines 379-384: decision HOLD,
confidence Low, reason 'Insufficient data for analysis', score 0,
and no signal-count keys. -/
def insufficientRecord : DecisionRecord :=
  { decision := "HOLD", confidence := "Low",
    reason := Rationale.insufficientData, score := 0,
    bullish_signals := none, bearish_signals := none }

/-- The record returned by the blanket exception handler of
generate_trading_decision (lines 492-498). -/
def analysisErrorRecord : DecisionRecord :=
  { decision := "HOLD", confidence := "Low",
    reason := Rationale.analysisError, score := 0,
    bullish_signals := none, bearish_signals := none }

/-- Python comparison v > b where v may be NaN (none): a comparison
with NaN is False. -/
def pyGt : Option ℚ → ℚ → Bool
  | some a, b => decide (b < a)
  | none, _ => false

/-- Python comparison v < b where v may be NaN (none). -/
def pyLt : Option ℚ → ℚ → Bool
  | some a, b => decide (a < b)
  | none, _ => false

/-- Python comparison a > b where either side may be NaN (none), as
in macd_val > signal_val. -/
def pyGtOpt : Option ℚ → Option ℚ → Bool
  | some a, some b => decide (b < a)
  | _, _ => false

/-- Vote triple: bullish increment, bearish increment, fired
reasons, in source order. -/
abbrev Votes := ℕ × ℕ × List Reason

/-- Accumulation of two vote triples. -/
def addVotes : Votes → Votes → Votes
  | (b1, s1, r1), (b2, s2, r2) => (b1 + b2, s1 + s2, r1 ++ r2)

/-- RSI rule (lines 394-405): oversold below 30 gives two bullish
votes, overbought above 70 two bearish votes, the 40-60 band one
bullish vote; a missing or NaN RSI is skipped by the np.isnan
guard. -/
def rsiVote : Option ℚ → Votes
  | none => (0, 0, [])
  | some r =>
      if r < 30 then (2, 0, [Reason.rsiOversold r])
      else if r > 70 then (0, 2, [Reason.rsiOverbought r])
      else if 40 ≤ r ∧ r ≤ 60 then (1, 0, [Reason.rsiNeutralBullish r])
      else (0, 0, [])

/-- ADX rule (lines 407-417): a missing or NaN ADX is skipped; ADX
above 25 records a strong trend and votes by the direction test
daily_rsi > 50, a Python comparison that is False when the RSI is
NaN; ADX at or below 25 records a weak trend and does not vote. -/
def adxVote (adx rsi : Option ℚ) : Votes :=
  match adx with
  | none => (0, 0, [])
  | some a =>
      if a > 25 then
        if pyGt rsi 50 then (1, 0, [Reason.strongTrend a])
        else (0, 1, [Reason.strongTrend a])
      else (0, 0, [Reason.weakTrend a])

/-- MACD rule (lines 419-430): the guard tests key presence with
"is not None", so a present NaN value passes the guard and the
comparison macd_val > signal_val is then False, a bearish vote. -/
def macdVote (m : MacdSnapshot) : Votes :=
  match m.macd, m.signal with
  | some mv, some sv =>
      if pyGtOpt mv sv then (1, 0, [Reason.macdBullishCrossover])
      else (0, 1, [Reason.macdBearishCrossover])
  | _, _ => (0, 0, [])

/-- Bollinger rule (lines 432-441): position below 20 is one bullish
vote, above 80 one bearish vote; NaN or missing is skipped. -/
def bbVote : Option ℚ → Votes
  | none => (0, 0, [])
  | some p =>
      if p < 20 then (1, 0, [Reason.nearLowerBand p])
      else if p > 80 then (0, 1, [Reason.nearUpperBand p])
      else (0, 0, [])

/-- Support-resistance rule (lines 443-456).  When support equals
resistance the float division (current - support) / (resistance -
support) raises ZeroDivisionError, which the blanket handler of the
engine catches: that path is the none result. -/
def srVote (close : ℚ) (support resistance : Option ℚ) : Option Votes :=
  match support, resistance with
  | some s, some r =>
      if r = s then none
      else
        let pp := (close - s) / (r - s) * 100
        some (if pp < 25 then (1, 0, [Reason.nearSupport s])
              else if pp > 75 then (0, 1, [Reason.nearResistance r])
              else (0, 0, []))
  | _, _ => some (0, 0, [])

/-- Thirty-minute confirmation rule (lines 458-467).  The source
first tests the truthiness of the min30 indicator dictionary and
then np.isnan of its RSI; a non-empty dictionary without a numeric
RSI votes exactly like an empty one, so the two guards collapse to
the availability of the secondary RSI, passed here already gated by
the '30min' key test (see generate_trading_decision). -/
def mtfVote (dailyRsi : Option ℚ) (min30Rsi : Option ℚ) : Votes :=
  match min30Rsi with
  | none => (0, 0, [])
  | some r30 =>
      if pyLt dailyRsi 40 ∧ r30 < 40 then
        (1, 0, [Reason.multiTimeframeOversold])
      else if pyGt dailyRsi 60 ∧ r30 > 60 then
        (0, 1, [Reason.multiTimeframeOverbought])
      else (0, 0, [])

/-- Final mapping of the accumulated votes (lines 469-481):
net_score at least 2 is BUY (High when at least 3, else Medium),
net_score at most -2 is SELL (High when at most -3, else Medium),
otherwise HOLD (Medium when the total vote count is at least 3,
else Low). -/
def finalDecision (b s : ℕ) : String × String :=
  let net : ℤ := (b : ℤ) - (s : ℤ)
  if net ≥ 2 then ("BUY", if net ≥ 3 then "High" else "Medium")
  else if net ≤ -2 then ("SELL", if net ≤ -3 then "High" else "Medium")
  else ("HOLD", if b + s ≥ 3 then "Medium" else "Low")

/-- Record returned on the normal path (lines 483-490). -/
def assembleRecord (b s : ℕ) (rs : List Reason) : DecisionRecord :=
  { decision := (finalDecision b s).1,
    confidence := (finalDecision b s).2,
    reason := if rs = [] then Rationale.neutral else Rationale.joined rs,
    score := (b : ℤ) - (s : ℤ),
    bullish_signals := some b, bearish_signals := some s }

/-- Shallow embedding of
PreMarketTechnicalAnalysisEngine.generate_trading_decision
(lines 367-498).  Notes on fidelity:

* daily_data is analysis['timeframes'].get('daily', {}); the early
  return fires when it carries an 'error' key or lacks an
  'indicators' key.  The reassignment of min30_data on line 376 is
  dead, since the guard of line 378 repeats the guard of line 375.
* min30_indicators (line 387) is taken from the entry read under key
  '30m' on line 373, but only when key '30min' is present in
  analysis['timeframes'].
* current_price (line 445) is read unconditionally; a missing ohlcv
  record raises a KeyError that the blanket handler turns into the
  analysis-error record, as does the ZeroDivisionError of the
  support-resistance rule. -/
def generate_trading_decision (a : Analysis) : DecisionRecord :=
  let dailyData := a.daily.getD emptyTimeframe
  if dailyData.hasError || dailyData.indicators.isNone then
    insufficientRecord
  else
    let ind := dailyData.indicators.getD emptyIndicators
    let min30Rsi : Option ℚ :=
      if a.m30min.isSome then
        ((a.m30.getD emptyTimeframe).indicators.getD emptyIndicators).rsi
      else none
    let v1 := rsiVote ind.rsi
    let v2 := adxVote ind.adx ind.rsi
    let v3 := macdVote ind.macd
    let v4 := bbVote ind.bb_position
    match dailyData.close with
    | none => analysisErrorRecord
    | some c =>
        match srVote c ind.support ind.resistance with
        | none => analysisErrorRecord
        | some v5 =>
            let v6 := mtfVote ind.rsi min30Rsi
            let acc :=
              addVotes (addVotes (addVotes (addVotes (addVotes v1 v2) v3) v4) v5) v6
            assembleRecord acc.1 acc.2.1 acc.2.2

/-! ## Optimized data cache (optimized_data_cache.py)

Instants are integers (minutes, say); datetime.now() is passed
explicitly.  The mutex of the source serialises the operations
modelled here as atomic state transitions; timeouts and thread
scheduling affect only the order of dictionary insertions, which the
keyed result model absorbs. -/

/-- State of an OptimizedDataCache instance: the cache and
cache_timestamps dictionaries and the configured duration. -/
structure Cache (V : Type) where
  store : List (String × V)
  timestamps : List (String × ℤ)
  cacheDuration : ℤ
  deriving Repr

/-- Freshly constructed cache with the given duration. -/
def Cache.empty (V : Type) (dur : ℤ) : Cache V :=
  { store := [], timestamps := [], cacheDuration := dur }

/-- Embedding of OptimizedDataCache._is_cache_valid (lines 50-54):
a key is valid when it has a timestamp and now minus that timestamp
is strictly below the cache duration. -/
def is_cache_valid {V : Type} (c : Cache V) (now : ℤ) (key : String) : Bool :=
  match dictGet c.timestamps key with
  | none => false
  | some t => decide (now - t < c.cacheDuration)

/-- Embedding of OptimizedDataCache._get_from_cache (lines 56-61):
the stored payload when the key is valid, otherwise None. -/
def get_from_cache {V : Type} (c : Cache V) (now : ℤ) (key : String) : Option V :=
  if is_cache_valid c now key then dictGet c.store key else none

/-- Embedding of OptimizedDataCache._set_cache (lines 63-67): store
the payload and stamp the key with now. -/
def set_cache {V : Type} (c : Cache V) (now : ℤ) (key : String) (data : V) : Cache V :=
  { c with store := dictInsert c.store key data,
           timestamps := dictInsert c.timestamps key now }

/-- Per-symbol result record as far as the batch claims need it: the
'status' key is either 'success' (with the payload) or 'error'
(with the message). -/
inductive StockResult (P : Type) where
  | success (payload : P)
  | error (msg : String)
  deriving DecidableEq, Repr

/-- Truth of status == 'error' on a result record. -/
def StockResult.isError {P : Type} : StockResult P → Bool
  | StockResult.error _ => true
  | StockResult.success _ => false

/-- Outcome of one worker call, future.result inclusive: the fetch
oracle returns either a result record (Except.ok, covering both the
success record and the error record that fetch_single_stock_data
builds itself) or a raised exception (Except.error, covering the
per-future timeout), which line 150-151 of the source catches and
converts to an error record. -/
def fetchOne {P : Type} (fetch : String → Except String (StockResult P))
    (symbol : String) : StockResult P :=
  match fetch symbol with
  | Except.ok r => r
  | Except.error e => StockResult.error e

/-- Cache key used by the batch for a symbol (line 131). -/
def stockKey (symbol : String) : String := "stock_" ++ symbol ++ "_5d"

/-- Embedding of
OptimizedDataCache.fetch_multiple_stocks_concurrent (lines 124-153).
Each symbol is answered from the cache when its entry is valid and
from the fetch oracle otherwise; every outcome is written into the
results dictionary under the symbol, so duplicate symbols collapse
to one binding exactly as in the Python dict.  The thread pool is
modelled by the deterministic per-symbol oracle: worker scheduling
changes only the completion order, which the keyed dictionary
absorbs.  The write-back of fetch_single_stock_data into the shared
cache is not modelled, since a repeated fetch of the same symbol
returns the same record either way. -/
def fetch_multiple_stocks_concurrent {P : Type}
    (c : Cache (StockResult P)) (now : ℤ)
    (fetch : String → Except String (StockResult P))
    (symbols : List String) : List (String × StockResult P) :=
  symbols.foldl
    (fun results s =>
      match get_from_cache c now (stockKey s) with
      | some r => dictInsert results s r
      | none => dictInsert results s (fetchOne fetch s))
    []

/-! ## Indicator library (premarket_technical_analysis_engine.py)

OHLCV bars carry rational prices; a series is a chronologically
ordered list of bars.  The bodies of calculate_rsi, calculate_adx
and calculate_macd call the external ta library; those calls are
modelled by the standard published formulas the library implements
(Wilder smoothing is an exponentially weighted mean with
alpha = 1/window seeded at the first observation, the pandas ewm
recurrence with adjust=False), faithful enough for the claims, none
of which constrains the numeric value these three produce. -/

/-- One OHLCV bar; opn is the Open column (open is a keyword). -/
structure Bar where
  opn : ℚ
  high : ℚ
  low : ℚ
  close : ℚ
  volume : ℤ
  deriving DecidableEq, Repr

/-- One step of the pandas ewm recurrence with adjust=False. -/
def ewmStep (alpha acc y : ℚ) : ℚ := alpha * y + (1 - alpha) * acc

/-- Full exponentially weighted series seeded at the first
observation, pandas ewm(..., adjust=False).mean(). -/
def ewmSeries (alpha : ℚ) : List ℚ → List ℚ
  | [] => []
  | x :: xs => List.scanl (ewmStep alpha) x xs

/-- Last value of the exponentially weighted series. -/
def ewmLast (alpha : ℚ) : List ℚ → ℚ
  | [] => 0
  | x :: xs => xs.foldl (ewmStep alpha) x

/-- Consecutive differences, pandas Series.diff with the leading NaN
dropped (the ewm recurrence seeds at the first valid value). -/
def diffs (xs : List ℚ) : List ℚ :=
  (xs.zip xs.tail).map (fun p => p.2 - p.1)

/-- Minimum of a list of rationals, pandas .min() (0 on an empty
list, which no guarded call reaches). -/
def listMin : List ℚ → ℚ
  | [] => 0
  | x :: xs => xs.foldl min x

/-- Maximum of a list of rationals, pandas .max(). -/
def listMax : List ℚ → ℚ
  | [] => 0
  | x :: xs => xs.foldl max x

/-- Last close of the RSI computation, modelling
ta.momentum.RSIIndicator(...).rsi().iloc[-1]: Wilder-smoothed
average gain over average loss. -/
def rsiLast (closes : List ℚ) (period : ℕ) : ℚ :=
  let d := diffs closes
  let gains := d.map (fun x => max x 0)
  let losses := d.map (fun x => max (-x) 0)
  let ag := ewmLast (1 / period) gains
  let al := ewmLast (1 / period) losses
  if al = 0 then 100 else 100 - 100 / (1 + ag / al)

/-- Embedding of calculate_rsi (lines 83-92): guard on an empty or
too-short series, else the rounded RSI of the Close column. -/
def calculate_rsi (data : List Bar) (period : ℕ := 14) : Option ℚ :=
  if data.isEmpty || data.length < period then none
  else some (round2 (rsiLast (data.map Bar.close) period))

/-- True ranges of consecutive bar pairs. -/
def trueRanges (data : List Bar) : List ℚ :=
  (data.zip data.tail).map fun p =>
    max (p.2.high - p.2.low) (max |p.2.high - p.1.close| |p.2.low - p.1.close|)

/-- Positive directional movements of consecutive bar pairs. -/
def dmPlus (data : List Bar) : List ℚ :=
  (data.zip data.tail).map fun p =>
    let up := p.2.high - p.1.high
    let dn := p.1.low - p.2.low
    if up > dn ∧ up > 0 then up else 0

/-- Negative directional movements of consecutive bar pairs. -/
def dmMinus (data : List Bar) : List ℚ :=
  (data.zip data.tail).map fun p =>
    let up := p.2.high - p.1.high
    let dn := p.1.low - p.2.low
    if dn > up ∧ dn > 0 then dn else 0

/-- Last value of the ADX computation, modelling
ta.trend.ADXIndicator(...).adx().iloc[-1]: Wilder-smoothed
directional indices combined into a smoothed DX. -/
def adxLast (data : List Bar) (period : ℕ) : ℚ :=
  let a : ℚ := 1 / period
  let sTR := ewmSeries a (trueRanges data)
  let sDMp := ewmSeries a (dmPlus data)
  let sDMm := ewmSeries a (dmMinus data)
  let diP := List.zipWith (fun dm tr => if tr = 0 then 0 else 100 * dm / tr) sDMp sTR
  let diM := List.zipWith (fun dm tr => if tr = 0 then 0 else 100 * dm / tr) sDMm sTR
  let dx := List.zipWith (fun p m => if p + m = 0 then 0 else 100 * |p - m| / (p + m)) diP diM
  ewmLast a dx

/-- Embedding of calculate_adx (lines 94-108): guard on an empty or
too-short series, else the rounded ADX. -/
def calculate_adx (data : List Bar) (period : ℕ := 14) : Option ℚ :=
  if data.isEmpty || data.length < period then none
  else some (round2 (adxLast data period))

/-- Result record of calculate_macd. -/
structure MacdResult where
  macd : Option ℚ
  signal : Option ℚ
  histogram : Option ℚ
  deriving DecidableEq, Repr

/-- MACD line, EMA(12) minus EMA(26) of the closes (the ewm spans
give alpha 2/13 and 2/27). -/
def macdLineSeries (closes : List ℚ) : List ℚ :=
  List.zipWith (fun a b => a - b) (ewmSeries (2 / 13) closes) (ewmSeries (2 / 27) closes)

/-- Embedding of calculate_macd (lines 110-123): guard on an empty
series or fewer than 26 bars, else the rounded MACD line, its EMA(9)
signal and their difference. -/
def calculate_macd (data : List Bar) : MacdResult :=
  if data.isEmpty || data.length < 26 then ⟨none, none, none⟩
  else
    let line := macdLineSeries (data.map Bar.close)
    let m := line.getLast?.getD 0
    let s := ewmLast (1 / 5) line
    ⟨some (round4 m), some (round4 s), some (round4 (m - s))⟩

/-- Result record of calculate_bollinger_bands. -/
structure BBResult where
  upper : Option ℚ
  middle : Option ℚ
  lower : Option ℚ
  position : Option ℚ
  deriving DecidableEq, Repr

/-- Trailing window of closes feeding the last rolling value,
rolling(period)...iloc[-1]. -/
def bbWindow (period : ℕ) (data : List Bar) : List ℚ :=
  let cs := data.map Bar.close
  cs.drop (cs.length - period)

/-- Rolling mean at the last bar, the Bollinger middle band before
rounding. -/
def bbMean (period : ℕ) (data : List Bar) : ℚ :=
  (bbWindow period data).sum / period

/-- Rolling population variance (ddof=0, as the ta library
configures the rolling std) at the last bar. -/
def bbVar (period : ℕ) (data : List Bar) : ℚ :=
  ((bbWindow period data).map (fun x => (x - bbMean period data) ^ 2)).sum / period

/-- Upper band before rounding; sq is the square-root routine of the
floating-point host, kept abstract because exact rationals have no
computable square root (theorems that need it hypothesise that sq
returns a genuine square root at the relevant value). -/
def bbUpper (sq : ℚ → ℚ) (period : ℕ) (data : List Bar) : ℚ :=
  bbMean period data + 2 * sq (bbVar period data)

/-- Lower band before rounding. -/
def bbLower (sq : ℚ → ℚ) (period : ℕ) (data : List Bar) : ℚ :=
  bbMean period data - 2 * sq (bbVar period data)

/-- Embedding of calculate_bollinger_bands (lines 125-147): guard on
an empty or too-short series; else the rounded bands and the band
position of the current price, 50 when the band has zero width
(line 138 guards the division with "if upper != lower"). -/
def calculate_bollinger_bands (sq : ℚ → ℚ) (data : List Bar)
    (period : ℕ := 20) : BBResult :=
  if data.isEmpty || data.length < period then ⟨none, none, none, none⟩
  else
    let current := (data.map Bar.close).getLast?.getD 0
    let u := bbUpper sq period data
    let l := bbLower sq period data
    let position := if u ≠ l then (current - l) / (u - l) * 100 else 50
    ⟨some (round2 u), some (round2 (bbMean period data)), some (round2 l),
     some (round1 position)⟩

/-- Result record of calculate_support_resistance. -/
structure SRResult where
  support : Option ℚ
  resistance : Option ℚ
  deriving DecidableEq, Repr

/-- Embedding of calculate_support_resistance (lines 149-165):
guard on an empty series or fewer than 20 bars, else the minimum low
and maximum high of the trailing 20 bars. -/
def calculate_support_resistance (data : List Bar) : SRResult :=
  if data.isEmpty || data.length < 20 then ⟨none, none⟩
  else
    let recent := data.drop (data.length - 20)
    ⟨some (round2 (listMin (recent.map Bar.low))),
     some (round2 (listMax (recent.map Bar.high)))⟩

/-! ### KST

The KST body is pure pandas; the pointwise series operations are
embedded as functions of the bar index.  A NaN entry of a derived
series is Option.none: pct_change(n) is NaN before index n, and
rolling(w).mean() is NaN unless the window is full and every entry
in it is a number (min_periods defaults to the window size and
counts only non-NaN observations). -/

/-- Percentage rate of change at index i, close.pct_change(n) * 100:
defined from index n on. -/
def rocAt (n : ℕ) (xs : List ℚ) (i : ℕ) : Option ℚ :=
  if n ≤ i ∧ i < xs.length then
    some ((xs.getD i 0 / xs.getD (i - n) 0 - 1) * 100)
  else none

/-- Sum of n consecutive entries of an Option-valued series starting
at lo; none as soon as one entry is none. -/
def winSum (f : ℕ → Option ℚ) (lo : ℕ) : ℕ → Option ℚ
  | 0 => some 0
  | n + 1 =>
      match f lo, winSum f (lo + 1) n with
      | some v, some s => some (v + s)
      | _, _ => none

/-- Rolling mean of width w at index i, rolling(w).mean(): the mean
of the w entries ending at i when the window fits and is all
numeric, NaN otherwise. -/
def rollingMeanAt (w : ℕ) (f : ℕ → Option ℚ) (i : ℕ) : Option ℚ :=
  if w ≤ i + 1 then (winSum f (i + 1 - w) w).map (fun s => s / w) else none

/-- Weighted KST sum at index i (line 189): the four smoothed
rates of change with weights 1, 2, 3, 4. -/
def kstAt (xs : List ℚ) (i : ℕ) : Option ℚ :=
  match rollingMeanAt 10 (rocAt 10 xs) i, rollingMeanAt 10 (rocAt 15 xs) i,
        rollingMeanAt 10 (rocAt 20 xs) i, rollingMeanAt 15 (rocAt 30 xs) i with
  | some m1, some m2, some m3, some m4 =>
      some (m1 * 1 + m2 * 2 + m3 * 3 + m4 * 4)
  | _, _, _, _ => none

/-- KST signal line at index i (line 190), the 9-period rolling mean
of the weighted sum. -/
def kstSignalAt (xs : List ℚ) (i : ℕ) : Option ℚ :=
  rollingMeanAt 9 (kstAt xs) i

/-- KST histogram at index i (line 191), weighted sum minus signal;
NaN as soon as either side is. -/
def kstHistAt (xs : List ℚ) (i : ℕ) : Option ℚ :=
  match kstAt xs i, kstSignalAt xs i with
  | some k, some s => some (k - s)
  | _, _ => none

/-- Result record of calculate_kst. -/
structure KstResult where
  kst : Option ℚ
  kst_signal : Option ℚ
  kst_histogram : Option ℚ
  deriving DecidableEq, Repr

/-- Embedding of calculate_kst (lines 167-199): guard on an empty
series or fewer than 100 bars, else the rounded last entries of the
weighted sum, the signal and the histogram, each kept NaN when the
underlying series entry is NaN (the pd.isna tests of lines
194-196). -/
def calculate_kst (data : List Bar) : KstResult :=
  if data.isEmpty || data.length < 100 then ⟨none, none, none⟩
  else
    let xs := data.map Bar.close
    let i := xs.length - 1
    ⟨(kstAt xs i).map round2, (kstSignalAt xs i).map round2,
     (kstHistAt xs i).map round2⟩

/-! ### Relative strength

calculate_relative_strength fetches the stock and benchmark series
itself; the embedding takes the two fetched series as arguments,
each a chronological list of (timestamp, close) pairs with distinct
timestamps, and covers everything from the emptiness checks on. -/

/-- Result record of calculate_relative_strength; the failure paths
return a record whose three first fields are NaN and that lacks the
return fields. -/
structure RSResult where
  relative_strength : Option ℚ
  rs_rank : Option ℚ
  outperformance : Option String
  stock_return : Option ℚ
  benchmark_return : Option ℚ
  deriving DecidableEq, Repr

/-- The all-NaN failure record of calculate_relative_strength. -/
def rsUnavailable : RSResult := ⟨none, none, none, none, none⟩

/-- Common timestamps in stock order,
stock_data.index.intersection(benchmark_data.index) (line 223). -/
def commonDates (stock bench : List (ℕ × ℚ)) : List ℕ :=
  (stock.map Prod.fst).filter (fun t => (bench.map Prod.fst).contains t)

/-- Closes of a series at the given timestamps,
series.loc[common_dates]['Close'] (lines 227-228). -/
def alignedCloses (series : List (ℕ × ℚ)) (dates : List ℕ) : List ℚ :=
  dates.filterMap (fun t => dictGet series t)

/-- Embedding of calculate_relative_strength (lines 201-255) from
the emptiness checks on: fewer than period common timestamps yields
the all-NaN record; otherwise the trailing-period returns of both
aligned series, their difference, the clamped rank and the
outperformance label.  A zero close at the lookback index raises
ZeroDivisionError in the source, caught by the blanket handler into
the all-NaN record. -/
def calculate_relative_strength (stock bench : List (ℕ × ℚ))
    (period : ℕ := 55) : RSResult :=
  if stock.isEmpty || bench.isEmpty then rsUnavailable
  else
    let common := commonDates stock bench
    if common.length < period then rsUnavailable
    else
      let sa := alignedCloses stock common
      let ba := alignedCloses bench common
      if period ≤ sa.length then
        let sLast := sa.getD (sa.length - 1) 0
        let sBack := sa.getD (sa.length - period) 0
        let bLast := ba.getD (ba.length - 1) 0
        let bBack := ba.getD (ba.length - period) 0
        if sBack = 0 || bBack = 0 then rsUnavailable
        else
          let stockReturn := (sLast / sBack - 1) * 100
          let benchReturn := (bLast / bBack - 1) * 100
          let rs := stockReturn - benchReturn
          let rank := max 0 (min 100 (50 + rs / 2))
          ⟨some (round2 rs), some (round1 rank),
           some (if rs > 0 then "Outperforming" else "Underperforming"),
           some (round2 stockReturn), some (round2 benchReturn)⟩
      else rsUnavailable

/-! ## Helper lemmas -/

section DictLemmas

variable {κ α : Type} [DecidableEq κ]

theorem dictGet_dictInsert_self (l : List (κ × α)) (k : κ) (v : α) :
    dictGet (dictInsert l k v) k = some v := by
  induction l with
  | nil => simp [dictGet, dictInsert]
  | cons hd tl ih =>
      obtain ⟨k', v'⟩ := hd
      by_cases h : k' = k
      · simp [dictInsert, dictGet, h]
      · simp [dictInsert, dictGet, h, ih]

theorem dictGet_dictInsert_ne (l : List (κ × α)) (k k' : κ) (v : α)
    (h : k' ≠ k) : dictGet (dictInsert l k v) k' = dictGet l k' := by
  have hk : ¬(k = k') := fun e => h e.symm
  induction l with
  | nil => simp [dictGet, dictInsert, hk]
  | cons hd tl ih =>
      obtain ⟨k₀, v₀⟩ := hd
      by_cases h0 : k₀ = k
      · subst h0
        simp [dictInsert, dictGet, hk]
      · simp only [dictInsert, if_neg h0, dictGet]
        by_cases h1 : k₀ = k'
        · simp [h1]
        · simp [h1, ih]

theorem length_dictInsert_of_none (l : List (κ × α)) (k : κ) (v : α)
    (h : dictGet l k = none) : (dictInsert l k v).length = l.length + 1 := by
  induction l with
  | nil => simp [dictInsert]
  | cons hd tl ih =>
      obtain ⟨k₀, v₀⟩ := hd
      by_cases h0 : k₀ = k
      · simp [dictGet, h0] at h
      · simp [dictGet, h0] at h
        simp [dictInsert, h0, ih h]

end DictLemmas

theorem mtfVote_none_daily (o : Option ℚ) : mtfVote none o = (0, 0, []) := by
  cases o with
  | none => rfl
  | some r => simp [mtfVote, pyLt, pyGt]

/-- Every run of the embedded decision engine ends in one of three
records: the early insufficient-data return, the blanket-handler
record, or the normal record assembled from the accumulated
votes. -/
theorem decision_shape (a : Analysis) :
    generate_trading_decision a = insufficientRecord ∨
    generate_trading_decision a = analysisErrorRecord ∨
    ∃ b s rs, generate_trading_decision a = assembleRecord b s rs := by
  unfold generate_trading_decision
  dsimp only
  split
  · exact Or.inl rfl
  · split
    · exact Or.inr (Or.inl rfl)
    · split
      · exact Or.inr (Or.inl rfl)
      · exact Or.inr (Or.inr ⟨_, _, _, rfl⟩)

/-! ## Claim C1 -/

/-- C1, counterexample: an analysis whose daily timeframe is present
with an empty indicator dictionary has zero available indicators,
yet generate_trading_decision does not return the
insufficient-data record for it: the returned rationale is
'Neutral technical indicators' and the record carries the
signal-count keys. -/
theorem C1_counterexample :
    generate_trading_decision
        { daily := some { hasError := false,
                          indicators := some emptyIndicators,
                          close := some 100 },
          m30 := none, m30min := none } ≠ insufficientRecord ∧
    (generate_trading_decision
        { daily := some { hasError := false,
                          indicators := some emptyIndicators,
                          close := some 100 },
          m30 := none, m30min := none }).reason = Rationale.neutral := by
  decide

/-- C1 (amended): generate_trading_decision returns exactly the
record {HOLD, Low, score 0, rationale 'Insufficient data for
analysis'} without the signal-count keys, and without raising,
precisely when the daily timeframe entry is absent, carries an
error marker, or lacks an indicators record; when the daily entry
is present with an empty (zero-indicator) indicator dictionary the
engine instead runs the scoring loop and returns HOLD, Low, score 0
with rationale 'Neutral technical indicators' and zero signal
counts. -/
theorem C1_insufficient_data_exact :
    (∀ a : Analysis,
        (a.daily.getD emptyTimeframe).hasError = true ∨
        (a.daily.getD emptyTimeframe).indicators = none →
        generate_trading_decision a = insufficientRecord) ∧
    (∀ (a : Analysis) (tf : TimeframeData),
        a.daily = some tf → tf.hasError = false →
        tf.indicators = some emptyIndicators → tf.close.isSome →
        generate_trading_decision a =
          { decision := "HOLD", confidence := "Low",
            reason := Rationale.neutral, score := 0,
            bullish_signals := some 0, bearish_signals := some 0 }) := by
  constructor
  · intro a h
    unfold generate_trading_decision
    dsimp only
    rcases h with h | h
    · rw [if_pos]
      simp [h]
    · rw [if_pos]
      simp [h]
  · intro a tf hd he hi hcl
    obtain ⟨c, hc⟩ := Option.isSome_iff_exists.mp hcl
    unfold generate_trading_decision
    rw [hd]
    simp only [Option.getD_some, he, hi, hc, Option.isNone_some, Bool.false_or,
      Bool.or_self, if_false, Option.getD_some]
    simp [emptyIndicators, rsiVote, adxVote, macdVote, bbVote, srVote,
      addVotes, mtfVote_none_daily, assembleRecord, finalDecision]

/-- C1, witness: the amended theorem applied to a missing daily
entry and to a present-but-empty indicator dictionary. -/
theorem C1_witness :
    generate_trading_decision { daily := none, m30 := none, m30min := none } =
      insufficientRecord ∧
    generate_trading_decision
        { daily := some { hasError := false,
                          indicators := some emptyIndicators,
                          close := some 100 },
          m30 := none, m30min := none } =
      { decision := "HOLD", confidence := "Low",
        reason := Rationale.neutral, score := 0,
        bullish_signals := some 0, bearish_signals := some 0 } :=
  ⟨C1_insufficient_data_exact.1 _ (Or.inr rfl),
   C1_insufficient_data_exact.2 _ _ rfl rfl rfl rfl⟩

/-! ## Claim C2 -/

/-- C2 (confirmed): whenever generate_trading_decision reaches the
final mapping (the returned record carries the signal counts), the
score is bullish votes minus bearish votes, the decision is BUY when
that net score is at least 2, SELL when it is at most -2 and HOLD
otherwise, and the confidence follows the stated thresholds, with
the HOLD confidence decided by the total vote count. -/
theorem C2_net_score_mapping (a : Analysis) (b s : ℕ)
    (hb : (generate_trading_decision a).bullish_signals = some b)
    (hs : (generate_trading_decision a).bearish_signals = some s) :
    (generate_trading_decision a).score = (b : ℤ) - (s : ℤ) ∧
    (generate_trading_decision a).decision =
      (if (b : ℤ) - (s : ℤ) ≥ 2 then "BUY"
       else if (b : ℤ) - (s : ℤ) ≤ -2 then "SELL" else "HOLD") ∧
    (generate_trading_decision a).confidence =
      (if (b : ℤ) - (s : ℤ) ≥ 2 then
         (if (b : ℤ) - (s : ℤ) ≥ 3 then "High" else "Medium")
       else if (b : ℤ) - (s : ℤ) ≤ -2 then
         (if (b : ℤ) - (s : ℤ) ≤ -3 then "High" else "Medium")
       else (if b + s ≥ 3 then "Medium" else "Low")) := by
  rcases decision_shape a with h | h | ⟨b', s', rs, h⟩
  · rw [h] at hb
    simp [insufficientRecord] at hb
  · rw [h] at hb
    simp [analysisErrorRecord] at hb
  · rw [h] at hb hs ⊢
    simp only [assembleRecord] at hb hs ⊢
    obtain rfl : b' = b := by simpa using hb
    obtain rfl : s' = s := by simpa using hs
    refine ⟨rfl, ?_, ?_⟩ <;>
      simp [finalDecision, apply_ite Prod.fst, apply_ite Prod.snd]

/-- C2, witness: the mapping theorem applied to a snapshot with an
oversold RSI (two bullish votes) and a bullish MACD crossover (one
bullish vote), a net score of 3. -/
theorem C2_witness :
    (generate_trading_decision
        { daily := some { hasError := false,
                          indicators := some { emptyIndicators with
                            rsi := some 25,
                            macd := ⟨some (some 2), some (some 1), some (some 1)⟩ },
                          close := some 100 },
          m30 := none, m30min := none }).score = (3 : ℤ) - (0 : ℤ) ∧
    (generate_trading_decision
        { daily := some { hasError := false,
                          indicators := some { emptyIndicators with
                            rsi := some 25,
                            macd := ⟨some (some 2), some (some 1), some (some 1)⟩ },
                          close := some 100 },
          m30 := none, m30min := none }).decision =
      (if (3 : ℤ) - (0 : ℤ) ≥ 2 then "BUY"
       else if (3 : ℤ) - (0 : ℤ) ≤ -2 then "SELL" else "HOLD") ∧
    (generate_trading_decision
        { daily := some { hasError := false,
                          indicators := some { emptyIndicators with
                            rsi := some 25,
                            macd := ⟨some (some 2), some (some 1), some (some 1)⟩ },
                          close := some 100 },
          m30 := none, m30min := none }).confidence =
      (if (3 : ℤ) - (0 : ℤ) ≥ 2 then
         (if (3 : ℤ) - (0 : ℤ) ≥ 3 then "High" else "Medium")
       else if (3 : ℤ) - (0 : ℤ) ≤ -2 then
         (if (3 : ℤ) - (0 : ℤ) ≤ -3 then "High" else "Medium")
       else (if 3 + 0 ≥ 3 then "Medium" else "Low")) :=
  C2_net_score_mapping _ 3 0 (by decide) (by decide)

/-! ## Claim C3 -/

/-- C3, counterexample: a snapshot with ADX 30 and an unavailable
RSI.  The claim predicts no vote in either direction (every other
indicator is unavailable, and the ADX direction test should not use
the unavailable RSI), yet the engine returns one bearish vote: the
Python comparison nan > 50 is False, so line 415 fires. -/
theorem C3_counterexample :
    ({ emptyIndicators with adx := some 30 } : Indicators).rsi = none ∧
    generate_trading_decision
        { daily := some { hasError := false,
                          indicators := some { emptyIndicators with adx := some 30 },
                          close := some 100 },
          m30 := none, m30min := none } =
      { decision := "HOLD", confidence := "Low",
        reason := Rationale.joined [Reason.strongTrend 30], score := -1,
        bullish_signals := some 0, bearish_signals := some 1 } := by
  decide

/-- C3 (amended): every scoring rule skips its own unavailable
indicator -- an unavailable RSI, ADX, Bollinger position, support,
resistance, MACD dictionary entry or secondary RSI contributes no
vote -- with two exceptions in which an unavailable value is used as
if it were a number: when ADX is above 25 and the RSI is
unavailable, the direction test daily_rsi > 50 evaluates to False
and one bearish vote is added; and when the MACD keys are present
but a NaN passes the "is not None" guard, the crossover comparison
evaluates to False and one bearish vote is added. -/
theorem C3_unavailable_skip :
    rsiVote none = (0, 0, []) ∧
    (∀ r : Option ℚ, adxVote none r = (0, 0, [])) ∧
    (∀ m : MacdSnapshot, m.macd = none → macdVote m = (0, 0, [])) ∧
    (∀ m : MacdSnapshot, m.signal = none → macdVote m = (0, 0, [])) ∧
    bbVote none = (0, 0, []) ∧
    (∀ (c : ℚ) (r : Option ℚ), srVote c none r = some (0, 0, [])) ∧
    (∀ (c : ℚ) (s : Option ℚ), srVote c s none = some (0, 0, [])) ∧
    (∀ d : Option ℚ, mtfVote d none = (0, 0, [])) ∧
    (∀ a : ℚ, 25 < a →
        adxVote (some a) none = (0, 1, [Reason.strongTrend a])) ∧
    (∀ (mv : Option ℚ) (h : Option (Option ℚ)),
        macdVote ⟨some mv, some none, h⟩ = (0, 1, [Reason.macdBearishCrossover])) ∧
    (∀ (sv : Option ℚ) (h : Option (Option ℚ)),
        macdVote ⟨some none, some sv, h⟩ = (0, 1, [Reason.macdBearishCrossover])) := by
  refine ⟨rfl, fun r => rfl, ?_, ?_, rfl, fun c r => rfl, ?_, fun d => rfl, ?_, ?_, ?_⟩
  · intro m hm
    cases m with
    | mk mm ms mh => cases hm; rfl
  · intro m hm
    cases m with
    | mk mm ms mh =>
        cases hm
        cases mm with
        | none => rfl
        | some mv => rfl
  · intro c s
    cases s with
    | none => rfl
    | some sv => rfl
  · intro a ha
    simp [adxVote, pyGt, ha]
  · intro mv h
    cases mv with
    | none => rfl
    | some v => simp [macdVote, pyGtOpt]
  · intro sv h
    cases sv with
    | none => rfl
    | some v => simp [macdVote, pyGtOpt]

/-- C3, witness: the skip-and-exception theorem applied at concrete
values: ADX 30 with an unavailable RSI yields the bearish vote, and
a missing MACD entry yields no vote. -/
theorem C3_witness :
    adxVote (some 30) none = (0, 1, [Reason.strongTrend 30]) ∧
    macdVote ⟨none, some (some 1), none⟩ = (0, 0, []) :=
  ⟨C3_unavailable_skip.2.2.2.2.2.2.2.2.1 30 (by norm_num),
   C3_unavailable_skip.2.2.1 ⟨none, some (some 1), none⟩ rfl⟩

/-! ## Claim C4 -/

/-- C4 (code bug): an analysis with daily RSI 35 and a secondary
thirty-minute RSI 35, stored under key '30m' exactly as
get_comprehensive_analysis produces it, corroborates oversold on
both timeframes, yet no additional bullish vote is added: the guard
on line 387 tests membership of key '30min', which the producer
never writes, so the secondary indicators are replaced by an empty
dictionary.  The second conjunct exhibits the intended behaviour:
the same analysis with a '30min' entry additionally present does
receive the multi-timeframe oversold vote from the '30m' data. -/
theorem C4_thirty_min_key_mismatch :
    generate_trading_decision
        { daily := some { hasError := false,
                          indicators := some { emptyIndicators with rsi := some 35 },
                          close := some 100 },
          m30 := some { hasError := false,
                        indicators := some { emptyIndicators with rsi := some 35 },
                        close := some 100 },
          m30min := none } =
      { decision := "HOLD", confidence := "Low",
        reason := Rationale.neutral, score := 0,
        bullish_signals := some 0, bearish_signals := some 0 } ∧
    generate_trading_decision
        { daily := some { hasError := false,
                          indicators := some { emptyIndicators with rsi := some 35 },
                          close := some 100 },
          m30 := some { hasError := false,
                        indicators := some { emptyIndicators with rsi := some 35 },
                        close := some 100 },
          m30min := some emptyTimeframe } =
      { decision := "HOLD", confidence := "Low",
        reason := Rationale.joined [Reason.multiTimeframeOversold], score := 1,
        bullish_signals := some 1, bearish_signals := some 0 } := by
  decide

/-! ## Claim C5 -/

/-- C5, counterexample: an entry stored at instant 0 and read at
instant 5 under a TTL of 5 has an age that does not exceed the TTL,
so the claim predicts a hit with the stored payload; the code
returns MISS, because _is_cache_valid requires the age to be
strictly below the duration. -/
theorem C5_counterexample :
    ¬((5 : ℤ) - 0 > 5) ∧
    dictGet (set_cache (Cache.empty ℕ 5) 0 "k" 42).store "k" = some 42 ∧
    get_from_cache (set_cache (Cache.empty ℕ 5) 0 "k" 42) 5 "k" = none := by
  decide

/-- C5 (amended): after storing a payload under a key at instant t,
reading that key at an instant with now - t strictly below the TTL
returns the stored payload unchanged, and the read returns MISS
exactly when now - t is at least the TTL; a key never stored always
reads as MISS. -/
theorem C5_ttl_semantics (V : Type) (c : Cache V) (k : String) (v : V)
    (t now : ℤ) :
    (now - t < c.cacheDuration →
        get_from_cache (set_cache c t k v) now k = some v) ∧
    (get_from_cache (set_cache c t k v) now k = none ↔
        c.cacheDuration ≤ now - t) ∧
    (∀ (dur now' : ℤ) (k' : String),
        get_from_cache (Cache.empty V dur) now' k' = none) := by
  have hts : dictGet (set_cache c t k v).timestamps k = some t :=
    dictGet_dictInsert_self c.timestamps k t
  have hst : dictGet (set_cache c t k v).store k = some v :=
    dictGet_dictInsert_self c.store k v
  have hvalid : is_cache_valid (set_cache c t k v) now k =
      decide (now - t < c.cacheDuration) := by
    unfold is_cache_valid
    rw [hts]
    rfl
  refine ⟨?_, ?_, ?_⟩
  · intro h
    unfold get_from_cache
    rw [hvalid]
    simp [h, hst]
  · unfold get_from_cache
    rw [hvalid]
    by_cases h : now - t < c.cacheDuration
    · simp [h, hst, not_le.mpr h]
    · simp [h, not_lt.mp h]
  · intro dur now' k'
    rfl

/-- C5, witness: a payload stored at instant 0 is returned unchanged
at instant 3 under a TTL of 5. -/
theorem C5_witness :
    get_from_cache (set_cache (Cache.empty ℕ 5) 0 "k" 42) 3 "k" = some 42 :=
  (C5_ttl_semantics ℕ (Cache.empty ℕ 5) "k" 42 0 3).1 (by decide)

/-! ## Claim C6 -/

theorem foldl_congr_mem {α β : Type} (f g : β → α → β) :
    ∀ (l : List α) (b : β), (∀ a ∈ l, ∀ x, f x a = g x a) →
      l.foldl f b = l.foldl g b := by
  intro l
  induction l with
  | nil => intro b _; rfl
  | cons a t ih =>
      intro b h
      simp only [List.foldl_cons]
      rw [h a (by simp), ih _ (fun u hu x => h u (by simp [hu]) x)]

theorem dictGet_insertFold {α : Type} (g : String → α) :
    ∀ (l : List String) (acc : List (String × α)) (x : String),
      dictGet (l.foldl (fun r s => dictInsert r s (g s)) acc) x =
        if x ∈ l then some (g x) else dictGet acc x := by
  intro l
  induction l with
  | nil => intro acc x; simp
  | cons s t ih =>
      intro acc x
      simp only [List.foldl_cons]
      rw [ih]
      by_cases hx : x ∈ t
      · simp [hx]
      · by_cases hxs : x = s
        · subst hxs
          simp [hx, dictGet_dictInsert_self]
        · simp [hx, hxs, dictGet_dictInsert_ne _ _ _ _ hxs]

theorem length_insertFold {α : Type} (g : String → α) :
    ∀ (l : List String), l.Nodup → ∀ (acc : List (String × α)),
      (∀ s ∈ l, dictGet acc s = none) →
      (l.foldl (fun r s => dictInsert r s (g s)) acc).length =
        acc.length + l.length := by
  intro l
  induction l with
  | nil => intro _ acc _; simp
  | cons s t ih =>
      intro hnd acc hacc
      simp only [List.foldl_cons]
      have hs : dictGet acc s = none := hacc s (by simp)
      have h1 : ∀ u ∈ t, dictGet (dictInsert acc s (g s)) u = none := by
        intro u hu
        have hus : u ≠ s := by
          intro e
          subst e
          exact (List.nodup_cons.mp hnd).1 hu
        rw [dictGet_dictInsert_ne _ _ _ _ hus]
        exact hacc u (by simp [hu])
      rw [ih (List.nodup_cons.mp hnd).2 _ h1,
        length_dictInsert_of_none _ _ _ hs]
      simp [Nat.add_assoc, Nat.add_comm 1 t.length]

theorem batch_eq_insertFold {P : Type} (c : Cache (StockResult P)) (now : ℤ)
    (fetch : String → Except String (StockResult P)) (symbols : List String)
    (hcache : ∀ s ∈ symbols, get_from_cache c now (stockKey s) = none) :
    fetch_multiple_stocks_concurrent c now fetch symbols =
      symbols.foldl (fun r s => dictInsert r s (fetchOne fetch s)) [] := by
  unfold fetch_multiple_stocks_concurrent
  apply foldl_congr_mem
  intro s hs x
  rw [hcache s hs]

theorem success_of_not_isError {P : Type} (r : StockResult P)
    (h : r.isError = false) : ∃ p, r = StockResult.success p := by
  cases r with
  | success p => exact ⟨p, rfl⟩
  | error m => simp [StockResult.isError] at h

/-- C6, counterexample: a batch of three submitted symbols with one
duplicate returns two results, not three -- the results dictionary
is keyed by symbol, so duplicate submissions collapse to a single
binding. -/
theorem C6_counterexample :
    (fetch_multiple_stocks_concurrent (Cache.empty (StockResult ℚ) 3) 0
        (fun s => if s = "A"
                  then Except.ok (StockResult.error "No data found for A")
                  else Except.ok (StockResult.success 1))
        ["A", "B", "B"]).length = 2 ∧
    (["A", "B", "B"] : List String).length = 3 := by
  decide

/-- C6 (amended): for a list of pairwise distinct symbols none of
which holds a valid cache entry, where the per-symbol fetch fails
for exactly one symbol k (its result record has error status, by
its own error path or a caught worker exception), the batch returns
one result per submitted symbol -- as many results as symbols --
with the entry of k the error record and every other entry a
success record; no per-symbol failure escapes as an exception of
the batch, which is total by construction. -/
theorem C6_batch_isolation {P : Type} (c : Cache (StockResult P)) (now : ℤ)
    (fetch : String → Except String (StockResult P))
    (symbols : List String) (k : String)
    (hnd : symbols.Nodup) (hk : k ∈ symbols)
    (hcache : ∀ s ∈ symbols, get_from_cache c now (stockKey s) = none)
    (hfail : (fetchOne fetch k).isError = true)
    (hok : ∀ s ∈ symbols, s ≠ k → (fetchOne fetch s).isError = false) :
    (fetch_multiple_stocks_concurrent c now fetch symbols).length =
      symbols.length ∧
    (∀ s ∈ symbols,
        dictGet (fetch_multiple_stocks_concurrent c now fetch symbols) s =
          some (fetchOne fetch s)) ∧
    (∃ m, dictGet (fetch_multiple_stocks_concurrent c now fetch symbols) k =
        some (StockResult.error m)) ∧
    (∀ s ∈ symbols, s ≠ k →
        ∃ p, dictGet (fetch_multiple_stocks_concurrent c now fetch symbols) s =
          some (StockResult.success p)) := by
  rw [batch_eq_insertFold c now fetch symbols hcache]
  have hget : ∀ x, dictGet
      (symbols.foldl (fun r s => dictInsert r s (fetchOne fetch s)) []) x =
      if x ∈ symbols then some (fetchOne fetch x) else none := by
    intro x
    rw [dictGet_insertFold]
    rfl
  refine ⟨?_, ?_, ?_, ?_⟩
  · have := length_insertFold (fun s => fetchOne fetch s) symbols hnd []
      (fun s _ => rfl)
    simpa using this
  · intro s hs
    rw [hget s]
    simp [hs]
  · obtain ⟨m, hm⟩ : ∃ m, fetchOne fetch k = StockResult.error m := by
      cases hr : fetchOne fetch k with
      | success p => rw [hr] at hfail; simp [StockResult.isError] at hfail
      | error m => exact ⟨m, rfl⟩
    refine ⟨m, ?_⟩
    rw [hget k]
    simp [hk, hm]
  · intro s hs hne
    obtain ⟨p, hp⟩ := success_of_not_isError _ (hok s hs hne)
    refine ⟨p, ?_⟩
    rw [hget s]
    simp [hs, hp]

/-- C6, witness: a two-symbol batch where fetching B times out:
both symbols get a result, A a success and B the error record. -/
theorem C6_witness :
    (fetch_multiple_stocks_concurrent (Cache.empty (StockResult ℚ) 3) 0
        (fun s => if s = "B" then Except.error "timeout"
                  else Except.ok (StockResult.success 1))
        ["A", "B"]).length = (["A", "B"] : List String).length ∧
    (∀ s ∈ (["A", "B"] : List String),
        dictGet (fetch_multiple_stocks_concurrent (Cache.empty (StockResult ℚ) 3) 0
            (fun s => if s = "B" then Except.error "timeout"
                      else Except.ok (StockResult.success 1))
            ["A", "B"]) s =
          some (fetchOne
            (fun s => if s = "B" then Except.error "timeout"
                      else Except.ok (StockResult.success 1)) s)) ∧
    (∃ m, dictGet (fetch_multiple_stocks_concurrent (Cache.empty (StockResult ℚ) 3) 0
        (fun s => if s = "B" then Except.error "timeout"
                  else Except.ok (StockResult.success 1))
        ["A", "B"]) "B" = some (StockResult.error m)) ∧
    (∀ s ∈ (["A", "B"] : List String), s ≠ "B" →
        ∃ p, dictGet (fetch_multiple_stocks_concurrent (Cache.empty (StockResult ℚ) 3) 0
            (fun s => if s = "B" then Except.error "timeout"
                      else Except.ok (StockResult.success 1))
            ["A", "B"]) s = some (StockResult.success p)) :=
  C6_batch_isolation (Cache.empty (StockResult ℚ) 3) 0 _ ["A", "B"] "B"
    (by decide) (by decide) (by decide) (by decide) (by decide)

/-! ## Claim C7 -/

/-- C7 (confirmed): every indicator with an input shorter than its
minimum window returns its unavailable sentinel -- none for RSI and
ADX below 14 bars, the all-none record for MACD below 26 bars, for
Bollinger bands and support/resistance below 20 bars and for KST
below 100 bars; the embedded functions are total, so no input
raises. -/
theorem C7_window_guards (data : List Bar) (sq : ℚ → ℚ) :
    (data.length < 14 → calculate_rsi data = none) ∧
    (data.length < 14 → calculate_adx data = none) ∧
    (data.length < 26 → calculate_macd data = ⟨none, none, none⟩) ∧
    (data.length < 20 →
        calculate_bollinger_bands sq data = ⟨none, none, none, none⟩) ∧
    (data.length < 20 → calculate_support_resistance data = ⟨none, none⟩) ∧
    (data.length < 100 → calculate_kst data = ⟨none, none, none⟩) := by
  refine ⟨?_, ?_, ?_, ?_, ?_, ?_⟩ <;> intro h <;>
    simp [calculate_rsi, calculate_adx, calculate_macd,
      calculate_bollinger_bands, calculate_support_resistance,
      calculate_kst, h]

/-- C7, witness: the guards applied to the empty series. -/
theorem C7_witness :
    calculate_rsi [] = none ∧
    calculate_adx [] = none ∧
    calculate_macd [] = ⟨none, none, none⟩ ∧
    calculate_bollinger_bands (fun x => x) [] = ⟨none, none, none, none⟩ ∧
    calculate_support_resistance [] = ⟨none, none⟩ ∧
    calculate_kst [] = ⟨none, none, none⟩ :=
  ⟨(C7_window_guards [] (fun x => x)).1 (by decide),
   (C7_window_guards [] (fun x => x)).2.1 (by decide),
   (C7_window_guards [] (fun x => x)).2.2.1 (by decide),
   (C7_window_guards [] (fun x => x)).2.2.2.1 (by decide),
   (C7_window_guards [] (fun x => x)).2.2.2.2.1 (by decide),
   (C7_window_guards [] (fun x => x)).2.2.2.2.2 (by decide)⟩

/-! ## Claim C8 -/

theorem dictGet_isSome_of_mem_keys {κ α : Type} [DecidableEq κ]
    (l : List (κ × α)) (t : κ) (h : t ∈ l.map Prod.fst) :
    (dictGet l t).isSome := by
  induction l with
  | nil => simp at h
  | cons hd tl ih =>
      obtain ⟨k₀, v₀⟩ := hd
      by_cases h0 : k₀ = t
      · simp [dictGet, h0]
      · simp only [List.map_cons, List.mem_cons] at h
        rcases h with h | h
        · exact absurd h.symm h0
        · simp only [dictGet, if_neg h0]
          exact ih h

theorem alignedCloses_length (series : List (ℕ × ℚ)) :
    ∀ dates : List ℕ, (∀ t ∈ dates, (dictGet series t).isSome) →
      (alignedCloses series dates).length = dates.length := by
  intro dates
  induction dates with
  | nil => intro _; rfl
  | cons d ds ih =>
      intro h
      obtain ⟨v, hv⟩ := Option.isSome_iff_exists.mp (h d (by simp))
      have ih' := ih (fun t ht => h t (by simp [ht]))
      simp only [alignedCloses, List.filterMap_cons, hv] at ih' ⊢
      simp [ih']

theorem commonDates_mem (stock bench : List (ℕ × ℚ)) (t : ℕ)
    (h : t ∈ commonDates stock bench) :
    t ∈ stock.map Prod.fst ∧ t ∈ bench.map Prod.fst := by
  simp only [commonDates, List.mem_filter] at h
  exact ⟨h.1, List.elem_iff.mp h.2⟩

/-- C8 (confirmed): with fewer than period common aligned
timestamps calculate_relative_strength returns the all-unavailable
record; with at least period common timestamps (and the price at
the lookback index nonzero on both sides, as a zero would raise
ZeroDivisionError into the handler), it returns the trailing
percentage returns of the aligned stock and benchmark closes, their
difference as the relative strength, the rank 50 plus half that
difference clamped to [0, 100], and the label Outperforming exactly
when the difference is strictly positive. -/
theorem C8_relative_strength (stock bench : List (ℕ × ℚ)) (period : ℕ)
    (hp : 1 ≤ period) :
    ((commonDates stock bench).length < period →
        calculate_relative_strength stock bench period = rsUnavailable) ∧
    (period ≤ (commonDates stock bench).length →
        ∀ sa ba : List ℚ,
        sa = alignedCloses stock (commonDates stock bench) →
        ba = alignedCloses bench (commonDates stock bench) →
        sa.getD (sa.length - period) 0 ≠ 0 →
        ba.getD (ba.length - period) 0 ≠ 0 →
        calculate_relative_strength stock bench period =
          { relative_strength := some (round2
              ((sa.getD (sa.length - 1) 0 / sa.getD (sa.length - period) 0 - 1) * 100 -
               (ba.getD (ba.length - 1) 0 / ba.getD (ba.length - period) 0 - 1) * 100)),
            rs_rank := some (round1 (max 0 (min 100 (50 +
              ((sa.getD (sa.length - 1) 0 / sa.getD (sa.length - period) 0 - 1) * 100 -
               (ba.getD (ba.length - 1) 0 / ba.getD (ba.length - period) 0 - 1) * 100) / 2)))),
            outperformance := some (if
              ((sa.getD (sa.length - 1) 0 / sa.getD (sa.length - period) 0 - 1) * 100 -
               (ba.getD (ba.length - 1) 0 / ba.getD (ba.length - period) 0 - 1) * 100) > 0
              then "Outperforming" else "Underperforming"),
            stock_return := some (round2
              ((sa.getD (sa.length - 1) 0 / sa.getD (sa.length - period) 0 - 1) * 100)),
            benchmark_return := some (round2
              ((ba.getD (ba.length - 1) 0 / ba.getD (ba.length - period) 0 - 1) * 100)) }) := by
  constructor
  · intro hlt
    unfold calculate_relative_strength
    by_cases he : stock.isEmpty || bench.isEmpty
    · simp [he]
    · simp [he, hlt]
  · intro hge sa ba hsa hba hs0 hb0
    have hcs : ∀ t ∈ commonDates stock bench, (dictGet stock t).isSome :=
      fun t ht => dictGet_isSome_of_mem_keys _ _ (commonDates_mem _ _ _ ht).1
    have hcb : ∀ t ∈ commonDates stock bench, (dictGet bench t).isSome :=
      fun t ht => dictGet_isSome_of_mem_keys _ _ (commonDates_mem _ _ _ ht).2
    have hsal : sa.length = (commonDates stock bench).length := by
      rw [hsa]; exact alignedCloses_length _ _ hcs
    have hne : ¬(stock.isEmpty || bench.isEmpty) := by
      have hpos : 0 < (commonDates stock bench).length := lt_of_lt_of_le hp hge
      obtain ⟨t, ht⟩ := List.exists_mem_of_length_pos hpos
      obtain ⟨hts, htb⟩ := commonDates_mem _ _ _ ht
      rcases stock with _ | _
      · simp at hts
      · rcases bench with _ | _
        · simp at htb
        · simp [List.isEmpty]
    unfold calculate_relative_strength
    rw [Bool.eq_false_iff.mpr hne]
    simp only [Bool.false_eq_true, if_false, hsa.symm, hba.symm]
    rw [if_neg (not_lt.mpr hge), if_pos (hsal ▸ hge)]
    rw [if_neg]
    simp only [Bool.or_eq_true, decide_eq_true_eq, not_or]
    exact ⟨hs0, hb0⟩

/-- C8, witness: two common timestamps, a stock that doubled against
a flat benchmark: relative strength 100, rank clamped to 100,
Outperforming. -/
theorem C8_witness :
    calculate_relative_strength [(1, 10), (2, 20)] [(1, 10), (2, 10)] 2 =
      { relative_strength := some 100, rs_rank := some 100,
        outperformance := some "Outperforming",
        stock_return := some 100, benchmark_return := some 0 } := by
  have h := (C8_relative_strength [(1, 10), (2, 20)] [(1, 10), (2, 10)] 2
      (by decide)).2 (by decide) _ _ rfl rfl (by decide) (by decide)
  refine h.trans ?_
  norm_num [alignedCloses, commonDates, dictGet, round2, round1, roundTo,
    round_eq, List.filterMap_cons, List.filter]

/-! ## Claim C9 -/

theorem rocAt_isSome (n : ℕ) (xs : List ℚ) (i : ℕ) (h1 : n ≤ i)
    (h2 : i < xs.length) : (rocAt n xs i).isSome := by
  simp [rocAt, h1, h2]

theorem winSum_isSome (f : ℕ → Option ℚ) :
    ∀ (n lo : ℕ), (∀ j, lo ≤ j → j < lo + n → (f j).isSome) →
      (winSum f lo n).isSome := by
  intro n
  induction n with
  | zero => intro lo _; simp [winSum]
  | succ m ih =>
      intro lo h
      obtain ⟨v, hv⟩ := Option.isSome_iff_exists.mp (h lo (le_refl lo) (by omega))
      obtain ⟨s, hsv⟩ := Option.isSome_iff_exists.mp
        (ih (lo + 1) (fun j hj1 hj2 => h j (by omega) (by omega)))
      simp [winSum, hv, hsv]

theorem rollingMeanAt_isSome (w : ℕ) (f : ℕ → Option ℚ) (i : ℕ)
    (hw : w ≤ i + 1) (h : ∀ j, i + 1 - w ≤ j → j ≤ i → (f j).isSome) :
    (rollingMeanAt w f i).isSome := by
  obtain ⟨s, hs⟩ := Option.isSome_iff_exists.mp
    (winSum_isSome f w (i + 1 - w) (fun j hj1 hj2 => h j hj1 (by omega)))
  simp [rollingMeanAt, hw, hs]

theorem kstAt_isSome (xs : List ℚ) (i : ℕ) (h44 : 44 ≤ i)
    (hlen : i < xs.length) : (kstAt xs i).isSome := by
  obtain ⟨m1, hm1⟩ := Option.isSome_iff_exists.mp
    (rollingMeanAt_isSome 10 (rocAt 10 xs) i (by omega)
      (fun j hj1 hj2 => rocAt_isSome 10 xs j (by omega) (by omega)))
  obtain ⟨m2, hm2⟩ := Option.isSome_iff_exists.mp
    (rollingMeanAt_isSome 10 (rocAt 15 xs) i (by omega)
      (fun j hj1 hj2 => rocAt_isSome 15 xs j (by omega) (by omega)))
  obtain ⟨m3, hm3⟩ := Option.isSome_iff_exists.mp
    (rollingMeanAt_isSome 10 (rocAt 20 xs) i (by omega)
      (fun j hj1 hj2 => rocAt_isSome 20 xs j (by omega) (by omega)))
  obtain ⟨m4, hm4⟩ := Option.isSome_iff_exists.mp
    (rollingMeanAt_isSome 15 (rocAt 30 xs) i (by omega)
      (fun j hj1 hj2 => rocAt_isSome 30 xs j (by omega) (by omega)))
  unfold kstAt
  rw [hm1, hm2, hm3, hm4]
  rfl

theorem kstSignalAt_isSome (xs : List ℚ) (i : ℕ) (h52 : 52 ≤ i)
    (hlen : i < xs.length) : (kstSignalAt xs i).isSome := by
  unfold kstSignalAt
  exact rollingMeanAt_isSome 9 (kstAt xs) i (by omega)
    (fun j hj1 hj2 => kstAt_isSome xs j (by omega) (by omega))

/-- C9 (confirmed): on a positive close series of at least 100 bars
the KST record is fully defined, its kst value is the rounded
weighted sum 1*MA10(ROC10) + 2*MA10(ROC15) + 3*MA10(ROC20) +
4*MA15(ROC30) at the last bar, its signal is the rounded 9-period
simple moving average of that weighted sum (kstSignalAt is that
rolling mean by definition), and its histogram is the rounded
difference of the unrounded weighted sum and signal. -/
theorem C9_kst_formula (data : List Bar) (hlen : 100 ≤ data.length)
    (hpos : ∀ b ∈ data, (0 : ℚ) < b.close) :
    ∃ m1 m2 m3 m4 sg : ℚ,
      rollingMeanAt 10 (rocAt 10 (data.map Bar.close))
        ((data.map Bar.close).length - 1) = some m1 ∧
      rollingMeanAt 10 (rocAt 15 (data.map Bar.close))
        ((data.map Bar.close).length - 1) = some m2 ∧
      rollingMeanAt 10 (rocAt 20 (data.map Bar.close))
        ((data.map Bar.close).length - 1) = some m3 ∧
      rollingMeanAt 15 (rocAt 30 (data.map Bar.close))
        ((data.map Bar.close).length - 1) = some m4 ∧
      kstAt (data.map Bar.close) ((data.map Bar.close).length - 1) =
        some (m1 * 1 + m2 * 2 + m3 * 3 + m4 * 4) ∧
      kstSignalAt (data.map Bar.close) ((data.map Bar.close).length - 1) =
        rollingMeanAt 9 (kstAt (data.map Bar.close))
          ((data.map Bar.close).length - 1) ∧
      kstSignalAt (data.map Bar.close) ((data.map Bar.close).length - 1) =
        some sg ∧
      calculate_kst data =
        { kst := some (round2 (m1 * 1 + m2 * 2 + m3 * 3 + m4 * 4)),
          kst_signal := some (round2 sg),
          kst_histogram :=
            some (round2 (m1 * 1 + m2 * 2 + m3 * 3 + m4 * 4 - sg)) } := by
  have hxlen : (data.map Bar.close).length = data.length := List.length_map _ _
  have hi2 : (data.map Bar.close).length - 1 < (data.map Bar.close).length := by
    omega
  have hi1 : 44 ≤ (data.map Bar.close).length - 1 := by omega
  obtain ⟨m1, hm1⟩ := Option.isSome_iff_exists.mp
    (rollingMeanAt_isSome 10 (rocAt 10 (data.map Bar.close))
      ((data.map Bar.close).length - 1) (by omega)
      (fun j hj1 hj2 => rocAt_isSome 10 _ j (by omega) (by omega)))
  obtain ⟨m2, hm2⟩ := Option.isSome_iff_exists.mp
    (rollingMeanAt_isSome 10 (rocAt 15 (data.map Bar.close))
      ((data.map Bar.close).length - 1) (by omega)
      (fun j hj1 hj2 => rocAt_isSome 15 _ j (by omega) (by omega)))
  obtain ⟨m3, hm3⟩ := Option.isSome_iff_exists.mp
    (rollingMeanAt_isSome 10 (rocAt 20 (data.map Bar.close))
      ((data.map Bar.close).length - 1) (by omega)
      (fun j hj1 hj2 => rocAt_isSome 20 _ j (by omega) (by omega)))
  obtain ⟨m4, hm4⟩ := Option.isSome_iff_exists.mp
    (rollingMeanAt_isSome 15 (rocAt 30 (data.map Bar.close))
      ((data.map Bar.close).length - 1) (by omega)
      (fun j hj1 hj2 => rocAt_isSome 30 _ j (by omega) (by omega)))
  have hk : kstAt (data.map Bar.close) ((data.map Bar.close).length - 1) =
      some (m1 * 1 + m2 * 2 + m3 * 3 + m4 * 4) := by
    unfold kstAt
    rw [hm1, hm2, hm3, hm4]
  obtain ⟨sg, hsg⟩ := Option.isSome_iff_exists.mp
    (kstSignalAt_isSome (data.map Bar.close)
      ((data.map Bar.close).length - 1) (by omega) hi2)
  have hhist : kstHistAt (data.map Bar.close)
      ((data.map Bar.close).length - 1) =
      some (m1 * 1 + m2 * 2 + m3 * 3 + m4 * 4 - sg) := by
    unfold kstHistAt
    rw [hk, hsg]
  refine ⟨m1, m2, m3, m4, sg, hm1, hm2, hm3, hm4, hk, rfl, hsg, ?_⟩
  have hne : data.isEmpty = false := by
    cases data with
    | nil => simp at hlen
    | cons a t => rfl
  have h100 : ¬data.length < 100 := by omega
  have hk' := hxlen ▸ hk
  have hsg' := hxlen ▸ hsg
  have hhist' := hxlen ▸ hhist
  simp [calculate_kst, hne, h100]
  exact ⟨⟨_, hk', by congr 1; ring⟩, ⟨_, hsg', rfl⟩,
    ⟨_, hhist', by congr 1; ring⟩⟩

/-- C9, witness: the formula theorem applied to a constant positive
series of one hundred bars. -/
theorem C9_witness :
    ∃ m1 m2 m3 m4 sg : ℚ,
      rollingMeanAt 10 (rocAt 10 ((List.replicate 100
          ({ opn := 1, high := 1, low := 1, close := 1, volume := 1 } : Bar)).map Bar.close))
        (((List.replicate 100
          ({ opn := 1, high := 1, low := 1, close := 1, volume := 1 } : Bar)).map Bar.close).length - 1) = some m1 ∧
      rollingMeanAt 10 (rocAt 15 ((List.replicate 100
          ({ opn := 1, high := 1, low := 1, close := 1, volume := 1 } : Bar)).map Bar.close))
        (((List.replicate 100
          ({ opn := 1, high := 1, low := 1, close := 1, volume := 1 } : Bar)).map Bar.close).length - 1) = some m2 ∧
      rollingMeanAt 10 (rocAt 20 ((List.replicate 100
          ({ opn := 1, high := 1, low := 1, close := 1, volume := 1 } : Bar)).map Bar.close))
        (((List.replicate 100
          ({ opn := 1, high := 1, low := 1, close := 1, volume := 1 } : Bar)).map Bar.close).length - 1) = some m3 ∧
      rollingMeanAt 15 (rocAt 30 ((List.replicate 100
          ({ opn := 1, high := 1, low := 1, close := 1, volume := 1 } : Bar)).map Bar.close))
        (((List.replicate 100
          ({ opn := 1, high := 1, low := 1, close := 1, volume := 1 } : Bar)).map Bar.close).length - 1) = some m4 ∧
      kstAt ((List.replicate 100
          ({ opn := 1, high := 1, low := 1, close := 1, volume := 1 } : Bar)).map Bar.close)
        (((List.replicate 100
          ({ opn := 1, high := 1, low := 1, close := 1, volume := 1 } : Bar)).map Bar.close).length - 1) =
        some (m1 * 1 + m2 * 2 + m3 * 3 + m4 * 4) ∧
      kstSignalAt ((List.replicate 100
          ({ opn := 1, high := 1, low := 1, close := 1, volume := 1 } : Bar)).map Bar.close)
        (((List.replicate 100
          ({ opn := 1, high := 1, low := 1, close := 1, volume := 1 } : Bar)).map Bar.close).length - 1) =
        rollingMeanAt 9 (kstAt ((List.replicate 100
          ({ opn := 1, high := 1, low := 1, close := 1, volume := 1 } : Bar)).map Bar.close))
          (((List.replicate 100
          ({ opn := 1, high := 1, low := 1, close := 1, volume := 1 } : Bar)).map Bar.close).length - 1) ∧
      kstSignalAt ((List.replicate 100
          ({ opn := 1, high := 1, low := 1, close := 1, volume := 1 } : Bar)).map Bar.close)
        (((List.replicate 100
          ({ opn := 1, high := 1, low := 1, close := 1, volume := 1 } : Bar)).map Bar.close).length - 1) =
        some sg ∧
      calculate_kst (List.replicate 100
          ({ opn := 1, high := 1, low := 1, close := 1, volume := 1 } : Bar)) =
        { kst := some (round2 (m1 * 1 + m2 * 2 + m3 * 3 + m4 * 4)),
          kst_signal := some (round2 sg),
          kst_histogram :=
            some (round2 (m1 * 1 + m2 * 2 + m3 * 3 + m4 * 4 - sg)) } :=
  C9_kst_formula _ (by simp)
    (fun b hb => by rw [List.eq_of_mem_replicate hb]; norm_num)

/-! ## Claim C10 -/

/-- C10 (confirmed): calculate_bollinger_bands is total on series of
at least 20 bars (all four fields are returned); when the upper and
lower bands coincide the position is 50 rather than a division by
zero; otherwise the position is the unclamped rounded value of
(close - lower) / (upper - lower) * 100, and on a concrete series
whose last close breaks out of the bands -- eighteen bars at 0
followed by two at 10, where the window variance is 9 and the
square-root routine genuinely returns 3 -- the position is 125,
strictly above 100. -/
theorem C10_bollinger_position :
    (∀ (sq : ℚ → ℚ) (data : List Bar), 20 ≤ data.length →
        ∃ u m l p : ℚ, calculate_bollinger_bands sq data =
          { upper := some u, middle := some m, lower := some l,
            position := some p }) ∧
    (∀ (sq : ℚ → ℚ) (data : List Bar), 20 ≤ data.length →
        bbUpper sq 20 data = bbLower sq 20 data →
        (calculate_bollinger_bands sq data).position = some 50) ∧
    (∀ (sq : ℚ → ℚ) (data : List Bar), 20 ≤ data.length →
        bbUpper sq 20 data ≠ bbLower sq 20 data →
        (calculate_bollinger_bands sq data).position =
          some (round1 (((data.map Bar.close).getLast?.getD 0 -
              bbLower sq 20 data) /
            (bbUpper sq 20 data - bbLower sq 20 data) * 100))) ∧
    ((fun v : ℚ => if v = 9 then 3 else 0)
        (bbVar 20 (List.replicate 18
            ({ opn := 0, high := 0, low := 0, close := 0, volume := 0 } : Bar) ++
          [{ opn := 10, high := 10, low := 10, close := 10, volume := 0 },
           { opn := 10, high := 10, low := 10, close := 10, volume := 0 }]))) ^ 2 =
      bbVar 20 (List.replicate 18
          ({ opn := 0, high := 0, low := 0, close := 0, volume := 0 } : Bar) ++
        [{ opn := 10, high := 10, low := 10, close := 10, volume := 0 },
         { opn := 10, high := 10, low := 10, close := 10, volume := 0 }]) ∧
    calculate_bollinger_bands (fun v : ℚ => if v = 9 then 3 else 0)
        (List.replicate 18
            ({ opn := 0, high := 0, low := 0, close := 0, volume := 0 } : Bar) ++
          [{ opn := 10, high := 10, low := 10, close := 10, volume := 0 },
           { opn := 10, high := 10, low := 10, close := 10, volume := 0 }]) =
      { upper := some 7, middle := some 1, lower := some (-5),
        position := some 125 } ∧
    (100 : ℚ) < 125 := by
  have htotal : ∀ (sq : ℚ → ℚ) (data : List Bar), 20 ≤ data.length →
      ∃ u m l p : ℚ, calculate_bollinger_bands sq data =
        { upper := some u, middle := some m, lower := some l,
          position := some p } := by
    intro sq data h
    have hne : data.isEmpty = false := by
      cases data with
      | nil => simp at h
      | cons a t => rfl
    have h20 : ¬data.length < 20 := by omega
    simp only [calculate_bollinger_bands, hne, Bool.false_or,
      decide_eq_true_eq, h20, if_false]
    exact ⟨_, _, _, _, rfl⟩
  refine ⟨htotal, ?_, ?_, ?_, ?_, by norm_num⟩
  · intro sq data h heq
    have hne : data.isEmpty = false := by
      cases data with
      | nil => simp at h
      | cons a t => rfl
    have h20 : ¬data.length < 20 := by omega
    simp [calculate_bollinger_bands, hne, h20, heq]
    norm_num [round1, roundTo, round_eq]
  · intro sq data h hneq
    have hne : data.isEmpty = false := by
      cases data with
      | nil => simp at h
      | cons a t => rfl
    have h20 : ¬data.length < 20 := by omega
    simp [calculate_bollinger_bands, hne, h20, hneq]
  · norm_num [bbVar, bbMean, bbWindow, List.sum_replicate]
  · norm_num [calculate_bollinger_bands, bbUpper, bbLower, bbVar, bbMean,
      bbWindow, round1, round2, roundTo, round_eq, List.sum_replicate]

/-- C10, witness: the totality and both position branches applied at
concrete inputs: the breakout series for the generic-formula branch
and a constant series (every close 5, square root of the zero
variance 0) for the zero-width branch. -/
theorem C10_witness :
    (∃ u m l p : ℚ,
        calculate_bollinger_bands (fun v : ℚ => if v = 9 then 3 else 0)
          (List.replicate 18
              ({ opn := 0, high := 0, low := 0, close := 0, volume := 0 } : Bar) ++
            [{ opn := 10, high := 10, low := 10, close := 10, volume := 0 },
             { opn := 10, high := 10, low := 10, close := 10, volume := 0 }]) =
          { upper := some u, middle := some m, lower := some l,
            position := some p }) ∧
    (calculate_bollinger_bands (fun _ : ℚ => 0)
        (List.replicate 20
          ({ opn := 5, high := 5, low := 5, close := 5, volume := 0 } : Bar))).position =
      some 50 :=
  ⟨C10_bollinger_position.1 _ _ (by simp),
   C10_bollinger_position.2.1 _ _ (by simp)
     (by norm_num [bbUpper, bbLower])⟩

end IndianMarkets
